import Mathlib

/-!
Verification development for the ovum-spotlight plugin package.

Shallow embedding of the Python sources:
  common_types.py, spotlight_sample_node.py, __init__.py,
  _mini_webserver.py, spotlight_routes.py, setup_user_plugins.py.

Machine integers are modelled as Int/Nat (Python ints are unbounded),
strings as Lean String, fallible code as Except/Option, and the
filesystem / network as explicit parameters.
-/

namespace OvumSpotlight

/-! ## Python string helpers shared across modules -/

/-- Characters stripped by Python str.strip() (the ASCII whitespace set). -/
def pyIsSpace (c : Char) : Bool :=
  c = ' ' || c = '\t' || c = '\n' || c = '\x0d' || c = '\x0c' || c = '\x0b'

/-- Python str.strip(): remove leading and trailing whitespace. -/
def pyStrip (s : String) : String :=
  String.mk (((s.data.dropWhile pyIsSpace).reverse.dropWhile pyIsSpace).reverse)

/-- Split a character list at the first colon, returning the parts before and
after it; none when there is no colon.  Used for Python s.split(":", 1) and
for urlparse scheme splitting. -/
def splitAtColon : List Char → Option (List Char × List Char)
  | [] => none
  | c :: r =>
    if c = ':' then some ([], r)
    else (splitAtColon r).map (fun p => (c :: p.1, p.2))

/-- ASCII decimal digit test (regex \d restricted to ASCII). -/
def isAsciiDigit (c : Char) : Bool := '0' ≤ c && c ≤ '9'

/-- Full match of the regex [+-]?\d+ on a character list. -/
def isSignedDecimal (s : List Char) : Bool :=
  match s with
  | '+' :: rest => !rest.isEmpty && rest.all isAsciiDigit
  | '-' :: rest => !rest.isEmpty && rest.all isAsciiDigit
  | _ => !s.isEmpty && s.all isAsciiDigit

/-- Value of a list of ASCII digits read in base 10. -/
def digitsToNat (l : List Char) : Nat :=
  l.foldl (fun a c => a * 10 + (c.toNat - '0'.toNat)) 0

/-- Python int(s) on a string already known to match [+-]?\d+. -/
def strToInt (s : List Char) : Int :=
  match s with
  | '+' :: rest => (digitsToNat rest : Int)
  | '-' :: rest => -(digitsToNat rest : Int)
  | _ => (digitsToNat s : Int)

/-- Lowercase one character (ASCII model of Python str.lower()). -/
def lowerChar (c : Char) : Char :=
  if 'A' ≤ c && c ≤ 'Z' then Char.ofNat (c.toNat + 32) else c

/-- Python s.lower(). -/
def pyLower (s : String) : String := String.mk (s.data.map lowerChar)

/-- Python s.startswith(p). -/
def pyStartsWith (s p : String) : Bool := p.data.isPrefixOf s.data

/-- Python s.endswith(p). -/
def pyEndsWith (s p : String) : Bool := p.data.isSuffixOf s.data

/-- Python str.replace for a nonempty pattern: scan left to right, replace
each non-overlapping occurrence.  The counter threads characters of a match
that remain to be skipped. -/
def replaceAux (pat rep : List Char) : Nat → List Char → List Char
  | _, [] => []
  | n + 1, _ :: rest => replaceAux pat rep n rest
  | 0, c :: rest =>
    if pat.isPrefixOf (c :: rest) then
      rep ++ replaceAux pat rep (pat.length - 1) rest
    else c :: replaceAux pat rep 0 rest

/-- Python s.replace(old, new) for nonempty old. -/
def pyReplace (s old new : String) : String :=
  String.mk (replaceAux old.data new.data 0 s.data)

/-- Python s.split(sep) for a one-character separator; also str.splitlines
restricted to the newline terminator. -/
def pySplitChar (sep : Char) : List Char → List (List Char)
  | [] => [[]]
  | c :: rest =>
    if c = sep then [] :: pySplitChar sep rest
    else
      match pySplitChar sep rest with
      | [] => [[c]]
      | h :: t => (c :: h) :: t

/-! ## common_types.py -/

/-- A universe of Python values as they reach _parse_optional_int or an
equality check against ANYTYPE: None, ints, bools (kept separate because the
code tests bool before int), strings, lists, floats and everything else. -/
inductive PyVal where
  | none
  | int (n : Int)
  | bool (b : Bool)
  | str (s : String)
  | list (l : List PyVal)
  | float
  | other

/-- The scalar branch of _parse_optional_int: the checks performed after the
None check and the single-element list unwrap (bool, int, str, final raise).
Errors model ValueError. -/
def parseScalarInt (v : PyVal) : Except String (Option Int) :=
  match v with
  | .bool _ => .error "must be an integer (blank for unset), got bool"
  | .int n => .ok (some n)
  | .str s =>
    let t := pyStrip s
    if t = "" then .ok Option.none
    else if isSignedDecimal t.data then .ok (some (strToInt t.data))
    else .error "must be an integer (blank for unset), got non-integer string"
  | _ => .error "must be an integer (blank for unset), got unsupported type"

/-- common_types._parse_optional_int.  None is handled before the list
unwrap, so a single-element list is unwrapped and then only the bool/int/str
checks apply to its element. -/
def parseOptionalInt (v : PyVal) : Except String (Option Int) :=
  match v with
  | .none => .ok Option.none
  | .list l =>
    match l with
    | [x] => parseScalarInt x
    | _ => .error "must be a single integer, got list of other length"
  | x => parseScalarInt x

/-- The claim's reading of _parse_optional_int: a one-element list is
unwrapped and ALL the stated rules, including the None rule, are applied to
its element.  Defined from the claim's words, to be compared with the code. -/
def parseOptionalIntClaimed (v : PyVal) : Except String (Option Int) :=
  match v with
  | .none => .ok Option.none
  | .int n => .ok (some n)
  | .str s =>
    let t := pyStrip s
    if t = "" then .ok Option.none
    else if isSignedDecimal t.data then .ok (some (strToInt t.data))
    else .error "non-integer string"
  | .list [x] =>
    match x with
    | .none => .ok Option.none
    | .int n => .ok (some n)
    | .str s =>
      let t := pyStrip s
      if t = "" then .ok Option.none
      else if isSignedDecimal t.data then .ok (some (strToInt t.data))
      else .error "non-integer string"
    | _ => .error "unsupported element"
  | _ => .error "unsupported type"

/-- The amended description of _parse_optional_int: a one-element list is
unwrapped and only the bool/int/str rules are applied to its element, so a
None element (like every other unsupported element type) raises ValueError. -/
def parseOptionalIntAmended (v : PyVal) : Except String (Option Int) :=
  match v with
  | .none => .ok Option.none
  | .list [x] => parseScalarInt x
  | .list _ => .error "must be a single integer, got list of other length"
  | .bool _ => parseScalarInt (.bool true)
  | .int n => .ok (some n)
  | .str s => parseScalarInt (.str s)
  | x => parseScalarInt x

/-- AnyType.__ne__ from common_types.py: returns False for every argument. -/
def anyTypeNe (_v : PyVal) : Bool := false

/-- Equality test ANYTYPE == v.  AnyType does not override __eq__, so this is
ordinary str equality of "*" with v: true exactly for the string "*". -/
def anyTypeEq (v : PyVal) : Bool :=
  match v with
  | .str s => s = "*"
  | _ => false

/-! ## spotlight_sample_node.py -/

/-- SpotlightSampleNode.identity: returns the one-element tuple (any,),
modelled as a one-element list of Python values. -/
def sampleNodeIdentity (any : PyVal) : List PyVal := [any]

/-- Calling identity with the optional input absent: the parameter defaults
to None. -/
def sampleNodeIdentityDefault : List PyVal := sampleNodeIdentity PyVal.none

/-! ## __init__.py (plugin loader) -/

/-- Character class [A-Z] of the pretty() regex. -/
def isUpperAZ (c : Char) : Bool := 'A' ≤ c && c ≤ 'Z'

/-- Character class [a-z] of the pretty() regex. -/
def isLowerAZ (c : Char) : Bool := 'a' ≤ c && c ≤ 'z'

/-- State machine for re.findall("[A-Z]*[a-z]*", name): scanning left to
right, each match is a maximal run of uppercase letters followed by a maximal
run of lowercase letters; at a position where the match is empty the scanner
records an empty string and advances one character, and a final empty match
is recorded at the end of the input.  The state holds the reversed characters
of the match in progress and whether its lowercase part has begun. -/
def findallAux (st : Option (List Char × Bool)) : List Char → List (List Char)
  | [] =>
    match st with
    | some (acc, _) => [acc.reverse, []]
    | _ => [[]]
  | c :: rest =>
    match st with
    | Option.none =>
      if isUpperAZ c then findallAux (some ([c], false)) rest
      else if isLowerAZ c then findallAux (some ([c], true)) rest
      else [] :: findallAux Option.none rest
    | some (acc, false) =>
      if isUpperAZ c then findallAux (some (c :: acc, false)) rest
      else if isLowerAZ c then findallAux (some (c :: acc, true)) rest
      else acc.reverse :: [] :: findallAux Option.none rest
    | some (acc, true) =>
      if isLowerAZ c then findallAux (some (c :: acc, true)) rest
      else if isUpperAZ c then acc.reverse :: findallAux (some ([c], false)) rest
      else acc.reverse :: [] :: findallAux Option.none rest

/-- __init__.pretty: " ".join(re.findall("[A-Z]*[a-z]*", name)). -/
def pretty (name : String) : String :=
  String.mk (List.intercalate [' '] (findallAux Option.none name.data))

/-- A node class as the loader sees it: its __name__ and its NAME attribute
(absent when getattr(clazz, "NAME", None) returns None). -/
structure NodeClass where
  name : String
  NAME : Option PyVal

/-- A sibling module as the loader sees it: the optional CLAZZES list and
the optional CLASS_MAPPINGS / CLASS_NAMES dictionaries (modelled as
insertion-ordered association lists, matching Python dict iteration). -/
structure PyModule where
  CLAZZES : Option (List NodeClass)
  CLASS_MAPPINGS : Option (List (String × NodeClass))
  CLASS_NAMES : Option (List (String × String))

/-- The two lookup tables NODE_CLASS_MAPPINGS and
NODE_DISPLAY_NAME_MAPPINGS. -/
structure Tables where
  ncm : String → Option NodeClass
  ndm : String → Option String

/-- The initial empty tables. -/
def emptyTables : Tables := ⟨fun _ => Option.none, fun _ => Option.none⟩

/-- Python dict assignment d[k] = v. -/
def tableInsert (m : String → Option β) (k : String) (v : β) :
    String → Option β :=
  fun q => if q = k then some v else m q

/-- Display name chosen for a CLAZZES entry: the NAME attribute when it is a
string that is non-blank after stripping, else pretty(name). -/
def displayFor (c : NodeClass) : String :=
  match c.NAME with
  | some (.str s) => if pyStrip s ≠ "" then s else pretty c.name
  | _ => pretty c.name

/-- Processing of one imported module by the loader loop in __init__.py.
The two for-loops of the CLASS_MAPPINGS branch touch disjoint tables, as in
the source. -/
def processModule (t : Tables) (m : PyModule) : Tables :=
  match m.CLAZZES with
  | some cl =>
    ⟨cl.foldl (fun mm c => tableInsert mm c.name c) t.ncm,
     cl.foldl (fun mm c => tableInsert mm c.name (displayFor c)) t.ndm⟩
  | Option.none =>
    match m.CLASS_MAPPINGS, m.CLASS_NAMES with
    | some cm, some cn =>
      ⟨cm.foldl (fun mm p => tableInsert mm p.1 p.2) t.ncm,
       cn.foldl
         (fun mm p => tableInsert mm p.1 (if p.2 ≠ "" then p.2 else pretty p.1))
         t.ndm⟩
    | _, _ => t

/-- The loader loop over all scanned sibling modules. -/
def loadModules (t : Tables) (ms : List PyModule) : Tables :=
  ms.foldl processModule t

/-- The file scan of __init__.py: sibling files ending in .py whose name
does not start with an underscore. -/
def scannedFiles (files : List String) : List String :=
  files.filter (fun f => pyEndsWith f ".py" && !(pyStartsWith f "_"))

/-! ## _mini_webserver.py -/

/-- A pathlib.Path value: whether it is absolute, plus its non-root
components.  PurePosixPath drops empty and "." components at construction. -/
structure PyPath where
  absolute : Bool
  comps : List String
  deriving DecidableEq, Repr

/-- Path(s): POSIX parse of a string. -/
def parsePyPath (s : String) : PyPath :=
  { absolute := pyStartsWith s "/",
    comps := ((pySplitChar '/' s.data).map String.mk).filter
      (fun q => q ≠ "" && q ≠ ".") }

/-- Path(*(p for p in Path(tail).parts if p not in ("..",""))) from
_serve_static_files: rebuild the path from the parts that are neither ".."
nor empty.  For an absolute tail the root part "/" survives the filter, so
absoluteness is preserved. -/
def safeTail (tail : String) : PyPath :=
  let p := parsePyPath tail
  { absolute := p.absolute,
    comps := p.comps.filter (fun q => q ≠ ".." && q ≠ "") }

/-- Path division base / p: an absolute right operand replaces the left. -/
def joinPath (base p : PyPath) : PyPath :=
  if p.absolute then p
  else { absolute := base.absolute, comps := base.comps ++ p.comps }

/-- Path division by one plain component. -/
def childPath (p : PyPath) (name : String) : PyPath :=
  { p with comps := p.comps ++ [name] }

/-- The filesystem as the route handler observes it: Path.resolve (symlink
and dot-dot resolution, done by the OS) plus the is_dir and is_file tests. -/
structure FS where
  resolve : PyPath → PyPath
  isDir : PyPath → Bool
  isFile : PyPath → Bool

/-- _is_subpath: child.resolve().relative_to(parent.resolve()) succeeds
exactly when the resolved parent's parts lead the resolved child's. -/
def isSubpath (fs : FS) (child parent : PyPath) : Bool :=
  let c := fs.resolve child
  let q := fs.resolve parent
  c.absolute = q.absolute && q.comps.isPrefixOf c.comps

/-- target.relative_to(base_dir) for a target below base_dir: drop the base
components. -/
def relativeTo (target base : PyPath) : PyPath :=
  { absolute := false, comps := target.comps.drop base.comps.length }

/-- The resolved target (base_dir / safe_tail).resolve() of
_serve_static_files. -/
def serveTarget (fs : FS) (tail : String) (baseDir : PyPath) : PyPath :=
  fs.resolve (joinPath baseDir (safeTail tail))

/-- The response shapes _serve_static_files can produce.  The rendered
Markdown page and the generated directory listing are identified by their
source paths; their HTML text comes from externally-owned code. -/
inductive StaticResponse where
  | forbidden
  | fileResponse (path : PyPath)
  | markdownPage (path : PyPath)
  | listing (dir : PyPath) (rel : PyPath)
  | notFound
  deriving DecidableEq, Repr

/-- _serve_static_files(tail, base_dir, base_url). -/
def serveStaticFiles (fs : FS) (tail : String) (baseDir : PyPath) :
    StaticResponse :=
  let target := serveTarget fs tail baseDir
  if !(isSubpath fs target baseDir) then .forbidden
  else if fs.isDir target then
    if fs.isFile (childPath target "index.html") then
      .fileResponse (childPath target "index.html")
    else if fs.isFile (childPath target "readme.md")
        || fs.isFile (childPath target "README.md") then
      .markdownPage (if fs.isFile (childPath target "readme.md")
        then childPath target "readme.md" else childPath target "README.md")
    else .listing target (relativeTo target baseDir)
  else if fs.isFile target then .fileResponse target
  else if pyStrip tail = "" then .listing baseDir ⟨false, []⟩
  else .notFound

/-- Identity-resolving filesystem with no entries, used to instantiate the
sandbox theorem. -/
def fsIdW : FS := ⟨fun p => p, fun _ => false, fun _ => false⟩

/-- Concrete base directory used to instantiate the webserver theorems. -/
def baseDirW : PyPath := ⟨true, ["srv", "web"]⟩

/-- Identity-resolving filesystem whose only directory is /srv/web/docs,
used to instantiate the directory-fallback theorem. -/
def fsDirW : FS :=
  ⟨fun p => p, fun p => p.comps == ["srv", "web", "docs"], fun _ => false⟩

/-! ## spotlight_routes.py (google proxy endpoint) -/

/-- UTF-8 bytes of one character. -/
def utf8Bytes (c : Char) : List Nat :=
  let n := c.toNat
  if n < 128 then [n]
  else if n < 2048 then [192 + n / 64, 128 + n % 64]
  else if n < 65536 then [224 + n / 4096, 128 + (n / 64) % 64, 128 + n % 64]
  else [240 + n / 262144, 128 + (n / 4096) % 64, 128 + (n / 64) % 64,
    128 + n % 64]

/-- Uppercase hexadecimal digit, as urllib percent-encoding emits. -/
def hexDigit (n : Nat) : Char :=
  if n < 10 then Char.ofNat (48 + n) else Char.ofNat (55 + n)

/-- urllib.parse.quote_plus: keep ASCII letters, digits and "_.-~", turn a
space into '+', and percent-encode the UTF-8 bytes of everything else. -/
def quotePlus (s : String) : String :=
  String.mk (s.data.foldr (fun c acc =>
    if ('A' ≤ c && c ≤ 'Z') || ('a' ≤ c && c ≤ 'z') || ('0' ≤ c && c ≤ '9')
        || c = '_' || c = '.' || c = '-' || c = '~' then c :: acc
    else if c = ' ' then '+' :: acc
    else (utf8Bytes c).foldr
      (fun b acc2 => '%' :: hexDigit (b / 16) :: hexDigit (b % 16) :: acc2)
      acc) [])

/-- The Google search URL spotlight_google builds for the outbound fetch and
again for the fallback link. -/
def googleSearchUrl (q : String) : String :=
  "https://www.google.com/search?hl=en&gl=us&pws=0&num=10&udm=14&q="
    ++ quotePlus q

/-- Scheme validity for urlsplit: a letter followed by letters, digits, '+',
'-' or '.'. -/
def validScheme (l : List Char) : Bool :=
  match l with
  | [] => false
  | c :: rest =>
    (isUpperAZ c || isLowerAZ c) &&
      rest.all (fun d =>
        isUpperAZ d || isLowerAZ d || isAsciiDigit d || d = '+' || d = '-'
          || d = '.')

/-- urllib.parse.urlparse(u).netloc: strip a valid scheme, then when the
remainder starts with two slashes the netloc runs to the next '/', '?' or
'#'; otherwise it is empty. -/
def urlNetloc (u : String) : String :=
  let rest :=
    match splitAtColon u.data with
    | some (sch, r) => if validScheme sch then r else u.data
    | Option.none => u.data
  match rest with
  | '/' :: '/' :: r =>
    String.mk (r.takeWhile (fun c => c ≠ '/' && c ≠ '?' && c ≠ '#'))
  | _ => ""

/-- State machine for re.sub(r'<[^>]+>', '', s): on '<' buffer characters
until '>'; a buffered run of at least one character closed by '>' forms a
tag and is dropped, while "<>" and an unterminated tail starting at '<' stay
literal.  The buffer holds the reversed characters seen after '<'. -/
def stripTagsAux (buf : Option (List Char)) : List Char → List Char
  | [] =>
    match buf with
    | some acc => '<' :: acc.reverse
    | _ => []
  | c :: rest =>
    match buf with
    | Option.none =>
      if c = '<' then stripTagsAux (some []) rest
      else c :: stripTagsAux Option.none rest
    | some acc =>
      if c = '>' then
        if acc.isEmpty then '<' :: '>' :: stripTagsAux Option.none rest
        else stripTagsAux Option.none rest
      else stripTagsAux (some (c :: acc)) rest

/-- re.sub(r'<[^>]+>', '', s). -/
def stripTags (s : String) : String :=
  String.mk (stripTagsAux Option.none s.data)

/-- The Google-owned host filter of add_match, applied to the lowercased
netloc: Google domains are rejected unless the host is sites.google.com. -/
def googleHost (netloc : String) : Bool :=
  (pyEndsWith netloc ".google.com" || pyEndsWith netloc ".googleusercontent.com"
    || pyEndsWith netloc ".gstatic.com" || pyEndsWith netloc ".google")
    && !(pyStartsWith netloc "sites.google.com")

/-- Accumulator of the add_match helper: the parallel urls and titles
lists. -/
structure ScrapeState where
  urls : List String
  titles : List String
  deriving DecidableEq, Repr

/-- add_match from spotlight_google: skip urls not starting with http, urls
on Google-owned hosts (except sites.google.com) and duplicates; the recorded
title is the tag-stripped h3 text, or the url itself when that is empty. -/
def addMatch (st : ScrapeState) (uRaw tRaw : String) : ScrapeState :=
  let u := pyStrip uRaw
  if !(pyStartsWith (pyLower u) "http") then st
  else if googleHost (pyLower (urlNetloc u)) then st
  else if st.urls.contains u then st
  else
    let t := stripTags (pyStrip tRaw)
    ⟨st.urls ++ [u], st.titles ++ [if t ≠ "" then t else u]⟩

/-- One finditer loop of spotlight_google: add each match, stopping once ten
urls have been collected. -/
def scanMatches (st : ScrapeState) : List (String × String) → ScrapeState
  | [] => st
  | (u, t) :: rest =>
    let st1 := addMatch st u t
    if 10 ≤ st1.urls.length then st1 else scanMatches st1 rest

/-- The regex matches extracted from the fetched HTML: the (href, h3)
groups of the direct and redirect link patterns (the h3 group already
defaulted to '' when absent), and the raw container groups of the two
snippet patterns.  The regex engine itself is externally owned; the handler
logic consumes these match lists. -/
structure ScrapeMatches where
  direct : List (String × String)
  redirect : List (String × String)
  snip1 : List String
  snip2 : List String
  deriving DecidableEq, Repr

/-- The urls/titles state after both link loops: the direct matches first,
then, only when fewer than ten urls were found, the redirect matches. -/
def collectState (inp : ScrapeMatches) : ScrapeState :=
  let st1 := scanMatches ⟨[], []⟩ inp.direct
  if st1.urls.length < 10 then scanMatches st1 inp.redirect else st1

/-- The snippets list: tag-stripped, stripped, non-empty texts of the first
snippet pattern, extended by the second pattern only when the first yielded
fewer snippets than there are urls. -/
def collectSnippets (inp : ScrapeMatches) (numUrls : Nat) : List String :=
  let s1 := (inp.snip1.map (fun s => pyStrip (stripTags s))).filter
    (fun s => s ≠ "")
  if numUrls ≤ s1.length then s1
  else s1 ++ (inp.snip2.map (fun s => pyStrip (stripTags s))).filter
    (fun s => s ≠ "")

/-- One entry of the JSON results list. -/
structure SearchResult where
  title : String
  url : String
  snippet : String
  deriving DecidableEq, Repr

/-- The final per-url assembly loop of spotlight_google. -/
def buildResults (st : ScrapeState) (snippets : List String) :
    List SearchResult :=
  (List.range st.urls.length).map (fun i =>
    { title := if i < st.titles.length then st.titles.getD i ""
        else st.urls.getD i "",
      url := st.urls.getD i "",
      snippet := if i < snippets.length then snippets.getD i "" else "" })

/-- The results list produced by a successful fetch of the given matches. -/
def liveResults (inp : ScrapeMatches) : List SearchResult :=
  let st := collectState inp
  buildResults st (collectSnippets inp st.urls.length)

/-- The responses the google endpoint returns: the 400 missing-q error, or
a JSON payload with its HTTP status. -/
inductive GoogleResponse where
  | badRequest
  | payload (status : Nat) (q : String) (results : List SearchResult)
  deriving DecidableEq, Repr

/-- The hard-coded fallback results list: one link to the Google search
page for the query. -/
def fallbackResults (q : String) : List SearchResult :=
  [{ title := "Open Google search for \x27" ++ q ++ "\x27",
     url := googleSearchUrl q,
     snippet := "Live results unavailable; click to open in browser." }]

/-- The spotlight_google handler.  The outbound fetch and regex scraping are
the failure-prone part inside the try block: an exception there leaves
results empty and live_ok false; web.json_response uses status 200. -/
def spotlightGoogle (q : String) (fetched : Except Unit ScrapeMatches) :
    GoogleResponse :=
  if q = "" then .badRequest
  else
    let results :=
      match fetched with
      | .error _ => []
      | .ok inp => liveResults inp
    if results.isEmpty then .payload 200 q (fallbackResults q)
    else .payload 200 q results

/-- The per-url acceptance condition enforced by add_match: the stripped
url starts with http (case-insensitively) and its lowercased host is not a
Google-owned one (except sites.google.com). -/
def urlOk (u : String) : Bool :=
  pyStartsWith (pyLower u) "http" && !(googleHost (pyLower (urlNetloc u)))

/-- Invariant maintained by the add_match accumulator: urls are pairwise
distinct and individually acceptable, and titles parallel them and are
non-empty. -/
def stateInv (st : ScrapeState) : Prop :=
  st.urls.Nodup ∧ (∀ u ∈ st.urls, urlOk u = true) ∧
  st.titles.length = st.urls.length ∧ (∀ t ∈ st.titles, t ≠ "")

/-- Concrete scrape input with a single valid direct match, used to
instantiate the live-response theorem. -/
def scrapeMatchesW : ScrapeMatches :=
  ⟨[("https://example.com/page", "<b>Example</b>")], [], ["Snippet <i>one</i>"], []⟩

/-- Concrete module used to instantiate the loader theorem. -/
def sampleClassW : NodeClass := ⟨"SpotlightSampleNode", some (.str "Spotlight Sample Node")⟩

/-- Concrete single-module environment used to instantiate the loader
theorem. -/
def sampleModuleW : PyModule := ⟨some [sampleClassW], Option.none, Option.none⟩

/-! ## setup_user_plugins.py -/

/-- LINK_CONTENT_REPLACEMENTS: exact substrings and their replacements,
applied in dict insertion order to content originating from a link. -/
def LINK_CONTENT_REPLACEMENTS : List (String × String) :=
  [("import(\"./spotlight-typedefs.js\")",
    "import(\"../typedefs/spotlight-typedefs.js\")")]

/-- REQUIRED_SUBDIRS from setup_user_plugins.py. -/
def REQUIRED_SUBDIRS : List String :=
  ["typedefs", "samples/filters", "samples/keywords", "samples/search",
   "samples/selection_commands", "samples/includes"]

/-- _apply_replacements: sequential literal str.replace over the rules. -/
def applyReplacements (text : String) (repls : List (String × String)) :
    String :=
  repls.foldl (fun t p => pyReplace t p.1 p.2) text

/-- _extract_headers_and_target reduced to what the copy logic consumes: the
link target string when the first line of the readable content starts with
"link:" case-insensitively, none otherwise.  The extra header lines are only
logged; an unreadable source is treated as a non-link. -/
def extractLinkTarget (content : Option String) : Option String :=
  match content with
  | Option.none => Option.none
  | some c =>
    match (pySplitChar '\n' c.data).map String.mk with
    | [] => Option.none
    | first :: _ =>
      let f := pyStrip first
      if pyStartsWith (pyLower f) "link:" then
        match splitAtColon f.data with
        | some (_, rest) => some (pyStrip (String.mk rest))
        | Option.none => Option.none
      else Option.none

/-- The destination side of a copy run: file content by relative path, and
the relative paths written so far, in order. -/
structure DestState where
  dst : List String → Option String
  writes : List (List String)

/-- _same_file: the destination exists and its size and full byte content
equal the source's; equal text implies equal size, so content equality is
the effective test. -/
def sameFile (srcContent : String) (dstContent : Option String) : Bool :=
  match dstContent with
  | some d => d == srcContent
  | Option.none => false

/-- _copy_file_with_compare acting on the destination map: skip when
_same_file holds, else write the source bytes. -/
def copyFileWithCompare (srcContent : String) (rel : List String)
    (acc : DestState) : DestState :=
  if sameFile srcContent (acc.dst rel) then acc
  else ⟨fun k => if k = rel then some srcContent else acc.dst k,
        acc.writes ++ [rel]⟩

/-- Resolution of a link target: an absolute target is used as is, a
relative one is resolved against the directory of the file holding the link
header. -/
def resolveLinkTarget (res : PyPath → PyPath) (srcParent : PyPath)
    (target : String) : PyPath :=
  let t := parsePyPath target
  if t.absolute then t else res (joinPath srcParent t)

/-- One iteration of the _copy_tree_with_links loop for the template file at
relative path rel with the given content.  world reads link-target files
(none: missing or unreadable).  A link whose target is readable gets the
transformed text, written only when the destination text differs; a link
with a missing or unreadable target, and every plain file, go through
_copy_file_with_compare. -/
def copyTreeStep (world : PyPath → Option String) (res : PyPath → PyPath)
    (srcRoot : PyPath) (acc : DestState) (f : List String × String) :
    DestState :=
  let rel := f.1
  let content := f.2
  let srcParent : PyPath := ⟨srcRoot.absolute, srcRoot.comps ++ rel.dropLast⟩
  match extractLinkTarget (some content) with
  | some tgt =>
    match world (resolveLinkTarget res srcParent tgt) with
    | Option.none => copyFileWithCompare content rel acc
    | some c =>
      let transformed := applyReplacements c LINK_CONTENT_REPLACEMENTS
      if acc.dst rel = some transformed then acc
      else ⟨fun k => if k = rel then some transformed else acc.dst k,
            acc.writes ++ [rel]⟩
  | Option.none => copyFileWithCompare content rel acc

/-- _copy_tree_with_links over the template files (relative path components
paired with text content, in rglob order). -/
def copyTreeWithLinks (world : PyPath → Option String) (res : PyPath → PyPath)
    (srcRoot : PyPath) (files : List (List String × String))
    (dst0 : List String → Option String) : DestState :=
  files.foldl (copyTreeStep world res srcRoot) ⟨dst0, []⟩

/-- The content _copy_tree_with_links ends up putting at a file's
destination: the transformed link-target text when the file is a link with
a readable target, the template file's own content otherwise. -/
def expectedContent (world : PyPath → Option String) (res : PyPath → PyPath)
    (srcRoot : PyPath) (f : List String × String) : String :=
  match extractLinkTarget (some f.2) with
  | some tgt =>
    match world (resolveLinkTarget res
        ⟨srcRoot.absolute, srcRoot.comps ++ f.1.dropLast⟩ tgt) with
    | some c => applyReplacements c LINK_CONTENT_REPLACEMENTS
    | Option.none => f.2
  | Option.none => f.2

/-- mkdir(parents=True, exist_ok=True): the path and all its ancestors come
to exist. -/
def mkdirParents (dirs : PyPath → Bool) (p : PyPath) : PyPath → Bool :=
  fun q => dirs q || (q.absolute == p.absolute && q.comps.isPrefixOf p.comps)

/-- Joining one REQUIRED_SUBDIRS relative string onto the base directory. -/
def subdirPath (base : PyPath) (rel : String) : PyPath :=
  ⟨base.absolute, base.comps ++ (parsePyPath rel).comps⟩

/-- _ensure_dirs: create the base directory and each required
subdirectory. -/
def ensureDirs (dirs : PyPath → Bool) (base : PyPath) : PyPath → Bool :=
  REQUIRED_SUBDIRS.foldl (fun d rel => mkdirParents d (subdirPath base rel))
    (mkdirParents dirs base)

/-- State of the world ensure_user_plugins_initialized acts on: existing
directories and destination file contents. -/
structure InitState where
  dirs : PyPath → Bool
  dst : List String → Option String

/-- ensure_user_plugins_initialized: create the directory skeleton, then
copy the template tree.  Returns the new state and the writes performed. -/
def ensureUserPluginsInitialized (world : PyPath → Option String)
    (res : PyPath → PyPath) (userBase srcDefault : PyPath)
    (files : List (List String × String)) (st : InitState) :
    InitState × List (List String) :=
  let dirs1 := ensureDirs st.dirs userBase
  let out := copyTreeWithLinks world res srcDefault files st.dst
  (⟨dirs1, out.dst⟩, out.writes)

/-- Concrete template root used to instantiate the bootstrap theorems. -/
def srcRootW : PyPath := ⟨true, ["mod", "user_plugins.default"]⟩

/-- Concrete link-target world used to instantiate the bootstrap theorems:
one readable file containing a replacement key. -/
def worldW : PyPath → Option String :=
  fun p => if p = ⟨true, ["mod", "web", "t.js"]⟩
    then some "import(\"./spotlight-typedefs.js\") x" else Option.none

/-- Concrete template files used to instantiate the bootstrap theorems. -/
def filesW : List (List String × String) :=
  [(["a.js"], "link:/mod/web/t.js"), (["b.txt"], "hello")]

/-- Empty initial destination state for the bootstrap witnesses. -/
def initStateW : InitState := ⟨fun _ => false, fun _ => Option.none⟩

/-! ## Theorems -/

/-- C7: the demonstration node performs no computation: for every input value
v (including the default None when the optional input is absent),
SpotlightSampleNode.identity(v) returns the one-element tuple (v,) containing
exactly the input, unchanged. -/
theorem C7_identity_passthrough (v : PyVal) :
    sampleNodeIdentity v = [v] ∧ sampleNodeIdentityDefault = [PyVal.none] :=
  ⟨rfl, rfl⟩

/-- C9 counterexample: the claim says a one-element list is unwrapped and the
stated rules applied to its element, so [None] would yield None; the code
instead raises ValueError, because the None check happens before the list
unwrap and the unwrapped element only passes through the bool/int/str checks. -/
theorem C9_counterexample_list_none :
    (parseOptionalInt (.list [.none])).isOk = false ∧
    parseOptionalIntClaimed (.list [.none]) = .ok Option.none :=
  ⟨rfl, rfl⟩

/-- C9 (amended): _parse_optional_int returns None for None or a blank
string, the parsed integer for a non-bool int or a signed-decimal string, and
a one-element list is unwrapped with only the bool/int/str rules applied to
its element (a None or nested-list element raises); everything else raises
ValueError. -/
theorem C9_parse_optional_int_amended (v : PyVal) :
    parseOptionalInt v = parseOptionalIntAmended v := by
  cases v with
  | none => rfl
  | int n => rfl
  | bool b => rfl
  | str s => rfl
  | float => rfl
  | other => rfl
  | list l =>
    match l with
    | [] => rfl
    | [_] => rfl
    | _ :: _ :: _ => rfl

/-- C10: AnyType.__ne__ unconditionally returns False, while == remains
ordinary string equality with "*"; hence == and != are not logical
complements on AnyType, and any inequality-based type check against ANYTYPE
always passes. -/
theorem C10_anytype_inequality :
    (∀ v : PyVal, anyTypeNe v = false) ∧
    (∀ v : PyVal, anyTypeEq v = true ↔ v = PyVal.str "*") ∧
    (∃ v : PyVal, ¬(anyTypeNe v = !anyTypeEq v)) := by
  refine ⟨fun _ => rfl, fun v => ?_, ⟨PyVal.int 0, by simp [anyTypeNe, anyTypeEq]⟩⟩
  cases v <;> simp [anyTypeEq]

/-- Folding dict assignments over keys not equal to k leaves d[k] unchanged. -/
theorem tableInsert_foldl_of_not_mem {α β : Type} (key : α → String) (val : α → β) :
    ∀ (l : List α) (m : String → Option β) (k : String), k ∉ l.map key →
      l.foldl (fun mm a => tableInsert mm (key a) (val a)) m k = m k := by
  intro l
  induction l with
  | nil => intro m k _; rfl
  | cons a l ih =>
    intro m k hk
    simp only [List.map_cons, List.mem_cons] at hk
    push_neg at hk
    simp only [List.foldl_cons]
    rw [ih _ _ hk.2]
    simp [tableInsert, hk.1]

/-- Folding dict assignments with pairwise-distinct keys stores each value
under its key. -/
theorem tableInsert_foldl_of_mem {α β : Type} (key : α → String) (val : α → β) :
    ∀ (l : List α) (m : String → Option β) (a : α), (l.map key).Nodup → a ∈ l →
      l.foldl (fun mm a => tableInsert mm (key a) (val a)) m (key a) = some (val a) := by
  intro l
  induction l with
  | nil => intro m a _ ha; cases ha
  | cons b l ih =>
    intro m a hnd ha
    simp only [List.map_cons, List.nodup_cons] at hnd
    simp only [List.foldl_cons]
    rcases List.mem_cons.mp ha with h | h
    · subst h
      rw [tableInsert_foldl_of_not_mem key val l _ _ hnd.1]
      simp [tableInsert]
    · exact ih _ _ hnd.2 h

/-- C6: the plugin loader scans every sibling .py file whose name does not
start with an underscore, and merges the two conventions into the two lookup
tables: CLAZZES entries are entered under the class __name__ with display
name NAME (when a non-blank string) or pretty(name); otherwise
CLASS_MAPPINGS and CLASS_NAMES entries are merged, falling back to
pretty(name) for falsy display names; a module matching neither convention
contributes no entries. -/
theorem C6_plugin_loader (files : List String) (t : Tables) (m : PyModule) :
    (∀ f, f ∈ scannedFiles files ↔
       f ∈ files ∧ pyEndsWith f ".py" = true ∧ pyStartsWith f "_" = false) ∧
    (∀ cl, m.CLAZZES = some cl → (cl.map NodeClass.name).Nodup →
       ∀ c ∈ cl, (processModule t m).ncm c.name = some c ∧
                 (processModule t m).ndm c.name = some (displayFor c)) ∧
    (m.CLAZZES = Option.none → ∀ cm cn,
       m.CLASS_MAPPINGS = some cm → m.CLASS_NAMES = some cn →
       ((cm.map Prod.fst).Nodup → ∀ p ∈ cm, (processModule t m).ncm p.1 = some p.2) ∧
       ((cn.map Prod.fst).Nodup → ∀ p ∈ cn,
          (processModule t m).ndm p.1 = some (if p.2 ≠ "" then p.2 else pretty p.1))) ∧
    (m.CLAZZES = Option.none →
       (m.CLASS_MAPPINGS = Option.none ∨ m.CLASS_NAMES = Option.none) →
       processModule t m = t) := by
  refine ⟨?scan, ?clazzes, ?autonode, ?neither⟩
  case scan =>
    intro f
    simp only [scannedFiles, List.mem_filter, Bool.and_eq_true, Bool.not_eq_true',
      and_assoc]
  case clazzes =>
    intro cl hcl hnd c hc
    have hn : (cl.map (fun c => c.name)).Nodup := hnd
    constructor
    · show (processModule t m).ncm ((fun c => c.name) c) = some ((fun c => c) c)
      simp only [processModule, hcl]
      exact tableInsert_foldl_of_mem (fun c => c.name) (fun c => c) cl t.ncm c hn hc
    · show (processModule t m).ndm ((fun c => c.name) c) = some (displayFor c)
      simp only [processModule, hcl]
      exact tableInsert_foldl_of_mem (fun c => c.name) displayFor cl t.ndm c hn hc
  case autonode =>
    intro hz cm cn hcm hcn
    constructor
    · intro hnd p hp
      show (processModule t m).ncm (Prod.fst p) = some (Prod.snd p)
      simp only [processModule, hz, hcm, hcn]
      exact tableInsert_foldl_of_mem Prod.fst Prod.snd cm t.ncm p hnd hp
    · intro hnd p hp
      show (processModule t m).ndm (Prod.fst p) =
        some ((fun p : String × String => if p.2 ≠ "" then p.2 else pretty p.1) p)
      simp only [processModule, hz, hcm, hcn]
      exact tableInsert_foldl_of_mem Prod.fst
        (fun p => if p.2 ≠ "" then p.2 else pretty p.1) cn t.ndm p hnd hp
  case neither =>
    intro hz hor
    cases m with
    | mk z zcm zcn =>
      simp only at hz
      subst hz
      rcases hor with h | h <;> simp only at h <;> subst h
      · simp [processModule]
      · cases zcm <;> simp [processModule]

/-- Witness instantiating C6 on a concrete one-class module. -/
theorem C6_plugin_loader_witness :
    (processModule emptyTables sampleModuleW).ncm "SpotlightSampleNode" = some sampleClassW ∧
    (processModule emptyTables sampleModuleW).ndm "SpotlightSampleNode" =
      some (displayFor sampleClassW) := by
  have h := ((C6_plugin_loader [] emptyTables sampleModuleW).2.1
    [sampleClassW] rfl (by simp)) sampleClassW (by simp)
  simpa [sampleClassW] using h

/-- C1: the static file server never serves content from outside the base
directory: dot-dot and empty components are stripped from the tail before
joining, and whenever the resolved target fails the sandbox check the
response is 403 Forbidden, for every requested tail (hence for both routes,
which share _serve_static_files). -/
theorem C1_path_traversal_guard (fs : FS) (tail : String) (baseDir : PyPath) :
    ((safeTail tail).comps.all (fun q => q ≠ ".." && q ≠ "")) = true ∧
    (serveStaticFiles fs tail baseDir ≠ .forbidden →
      isSubpath fs (serveTarget fs tail baseDir) baseDir = true) ∧
    (isSubpath fs (serveTarget fs tail baseDir) baseDir = false →
      serveStaticFiles fs tail baseDir = .forbidden) := by
  refine ⟨?strip, ?serve, ?sandbox⟩
  case strip =>
    simp only [safeTail, List.all_eq_true]
    intro q hq
    exact (List.mem_filter.mp hq).2
  case serve =>
    intro hne
    cases h : isSubpath fs (serveTarget fs tail baseDir) baseDir
    · exact absurd (by simp [serveStaticFiles, h]) hne
    · rfl
  case sandbox =>
    intro h
    simp [serveStaticFiles, h]

/-- Witness instantiating C1: an absolute tail resolving outside the base
directory is answered with 403 Forbidden. -/
theorem C1_path_traversal_guard_witness :
    isSubpath fsIdW (serveTarget fsIdW "/etc/passwd" baseDirW) baseDirW = false ∧
    serveStaticFiles fsIdW "/etc/passwd" baseDirW = .forbidden :=
  ⟨by decide, (C1_path_traversal_guard fsIdW "/etc/passwd" baseDirW).2.2 (by decide)⟩

/-- C3: for every request whose sandbox-checked target is an existing
directory, the server tries exactly index.html, then readme.md, then
README.md (rendered from Markdown), then a generated directory listing, in
that order. -/
theorem C3_directory_index_fallback (fs : FS) (tail : String) (baseDir : PyPath)
    (hsub : isSubpath fs (serveTarget fs tail baseDir) baseDir = true)
    (hdir : fs.isDir (serveTarget fs tail baseDir) = true) :
    serveStaticFiles fs tail baseDir =
      (if fs.isFile (childPath (serveTarget fs tail baseDir) "index.html") then
        StaticResponse.fileResponse
          (childPath (serveTarget fs tail baseDir) "index.html")
      else if fs.isFile (childPath (serveTarget fs tail baseDir) "readme.md") then
        StaticResponse.markdownPage
          (childPath (serveTarget fs tail baseDir) "readme.md")
      else if fs.isFile (childPath (serveTarget fs tail baseDir) "README.md") then
        StaticResponse.markdownPage
          (childPath (serveTarget fs tail baseDir) "README.md")
      else
        StaticResponse.listing (serveTarget fs tail baseDir)
          (relativeTo (serveTarget fs tail baseDir) baseDir)) := by
  simp only [serveStaticFiles, hsub, hdir, Bool.not_true, Bool.false_eq_true,
    if_false, if_true]
  cases h1 : fs.isFile (childPath (serveTarget fs tail baseDir) "index.html")
  · cases h2 : fs.isFile (childPath (serveTarget fs tail baseDir) "readme.md")
    · cases h3 : fs.isFile (childPath (serveTarget fs tail baseDir) "README.md")
      · simp [h1, h2, h3]
      · simp [h1, h2, h3]
    · simp [h1, h2]
  · simp [h1]

/-- Witness instantiating C3: a directory with no index or readme files is
answered with the generated listing. -/
theorem C3_directory_index_fallback_witness :
    serveStaticFiles fsDirW "docs" baseDirW =
      StaticResponse.listing ⟨true, ["srv", "web", "docs"]⟩ ⟨false, ["docs"]⟩ := by
  have h := C3_directory_index_fallback fsDirW "docs" baseDirW (by decide) (by decide)
  rw [h]
  decide

/-- C2: for every non-empty query, when the fetch raises or no results can
be extracted, the endpoint returns the status-200 fallback payload echoing
the query, with exactly one result linking to the Google search page. -/
theorem C2_fallback_on_failure (q : String) (fetched : Except Unit ScrapeMatches)
    (hq : q ≠ "")
    (hfail : fetched = .error () ∨ ∃ inp, fetched = .ok inp ∧ liveResults inp = []) :
    spotlightGoogle q fetched = .payload 200 q (fallbackResults q) ∧
    (fallbackResults q).length = 1 ∧
    ∀ r ∈ fallbackResults q, r.url = googleSearchUrl q := by
  refine ⟨?_, rfl, ?_⟩
  · rcases hfail with h | ⟨inp, h, hres⟩
    · subst h
      simp [spotlightGoogle, hq]
    · subst h
      simp [spotlightGoogle, hq, hres]
  · intro r hr
    rcases List.mem_singleton.mp hr with rfl
    rfl

/-- Witness instantiating C2 on a failed fetch. -/
theorem C2_fallback_on_failure_witness :
    spotlightGoogle "demo" (.error ()) = .payload 200 "demo" (fallbackResults "demo") ∧
    (fallbackResults "demo").length = 1 ∧
    ∀ r ∈ fallbackResults "demo", r.url = googleSearchUrl "demo" :=
  C2_fallback_on_failure "demo" (.error ()) (by decide) (Or.inl rfl)

/-- A string passing the http prefix check is non-empty. -/
theorem ne_empty_of_http (u : String)
    (h : pyStartsWith (pyLower u) "http" = true) : u ≠ "" := by
  intro he
  subst he
  exact absurd h (by decide)

/-- add_match grows the url list by at most one element. -/
theorem addMatch_len (st : ScrapeState) (u t : String) :
    (addMatch st u t).urls.length ≤ st.urls.length + 1 := by
  simp only [addMatch]
  split
  · exact Nat.le_succ _
  split
  · exact Nat.le_succ _
  split
  · exact Nat.le_succ _
  simp

/-- add_match preserves the accumulator invariant. -/
theorem addMatch_inv (st : ScrapeState) (u t : String) (h : stateInv st) :
    stateInv (addMatch st u t) := by
  obtain ⟨hnd, hok, hlen, htl⟩ := h
  simp only [addMatch]
  split
  · exact ⟨hnd, hok, hlen, htl⟩
  rename_i h1
  split
  · exact ⟨hnd, hok, hlen, htl⟩
  rename_i h2
  split
  · exact ⟨hnd, hok, hlen, htl⟩
  rename_i h3
  have h1t : pyStartsWith (pyLower (pyStrip u)) "http" = true := by
    simpa using h1
  have h2f : googleHost (pyLower (urlNetloc (pyStrip u))) = false := by
    simpa using h2
  have hmem : pyStrip u ∉ st.urls := by simpa using h3
  refine ⟨?_, ?_, ?_, ?_⟩
  · simp [List.nodup_append, hnd, hmem]
  · intro v hv
    rcases List.mem_append.mp hv with hv | hv
    · exact hok v hv
    · rcases List.mem_singleton.mp hv with rfl
      simp [urlOk, h1t, h2f]
  · simp [hlen]
  · intro s hs
    rcases List.mem_append.mp hs with hs | hs
    · exact htl s hs
    · rcases List.mem_singleton.mp hs with rfl
      by_cases ht : stripTags (pyStrip t) = ""
      · simpa [ht] using ne_empty_of_http _ h1t
      · simp [ht]

/-- The finditer loop preserves the accumulator invariant. -/
theorem scanMatches_inv (l : List (String × String)) :
    ∀ st, stateInv st → stateInv (scanMatches st l) := by
  induction l with
  | nil => intro st h; exact h
  | cons p rest ih =>
    intro st h
    obtain ⟨u, t⟩ := p
    have h1 := addMatch_inv st u t h
    simp only [scanMatches]
    split
    · exact h1
    · exact ih _ h1

/-- The finditer loop never pushes the url list beyond ten entries when it
starts from at most nine. -/
theorem scanMatches_len (l : List (String × String)) :
    ∀ st, st.urls.length ≤ 9 → (scanMatches st l).urls.length ≤ 10 := by
  induction l with
  | nil => intro st h; exact Nat.le_trans h (by omega)
  | cons p rest ih =>
    intro st h
    obtain ⟨u, t⟩ := p
    have hb : (addMatch st u t).urls.length ≤ st.urls.length + 1 :=
      addMatch_len st u t
    simp only [scanMatches]
    split
    · omega
    · rename_i hlt
      exact ih _ (by omega)

/-- The state after both link loops satisfies the invariant. -/
theorem collectState_inv (inp : ScrapeMatches) : stateInv (collectState inp) := by
  have h0 : stateInv ⟨[], []⟩ := ⟨List.nodup_nil, by simp, rfl, by simp⟩
  have h1 := scanMatches_inv inp.direct _ h0
  show stateInv
    (if (scanMatches ⟨[], []⟩ inp.direct).urls.length < 10
      then scanMatches (scanMatches ⟨[], []⟩ inp.direct) inp.redirect
      else scanMatches ⟨[], []⟩ inp.direct)
  split
  · exact scanMatches_inv inp.redirect _ h1
  · exact h1

/-- The state after both link loops has at most ten urls. -/
theorem collectState_len (inp : ScrapeMatches) :
    (collectState inp).urls.length ≤ 10 := by
  have h1 := scanMatches_len inp.direct ⟨[], []⟩ (by simp)
  show (if (scanMatches ⟨[], []⟩ inp.direct).urls.length < 10
      then scanMatches (scanMatches ⟨[], []⟩ inp.direct) inp.redirect
      else scanMatches ⟨[], []⟩ inp.direct).urls.length ≤ 10
  split
  · rename_i hlt
    exact scanMatches_len inp.redirect _ (by omega)
  · exact h1

/-- The assembly loop produces one result per url. -/
theorem buildResults_length (st : ScrapeState) (sn : List String) :
    (buildResults st sn).length = st.urls.length := by
  simp [buildResults]

/-- The url fields of the assembled results are exactly the collected
urls. -/
theorem buildResults_map_url (st : ScrapeState) (sn : List String) :
    (buildResults st sn).map (fun r => r.url) = st.urls := by
  apply List.ext_get
  · simp [buildResults]
  · intro i h1 h2
    simp only [List.get_eq_getElem, List.getElem_map, buildResults,
      List.getElem_range]
    exact List.getD_eq_getElem st.urls "" h2

/-- C8: every live (non-fallback) response of the google endpoint holds at
most ten results with pairwise-distinct urls; every url starts with http
(case-insensitively), its host is not a Google-owned one unless it starts
with sites.google.com, and every entry carries a non-empty title. -/
theorem C8_live_response_invariants (q : String) (inp : ScrapeMatches)
    (hq : q ≠ "") (hlive : (liveResults inp).isEmpty = false) :
    spotlightGoogle q (.ok inp) = .payload 200 q (liveResults inp) ∧
    (liveResults inp).length ≤ 10 ∧
    (liveResults inp).Pairwise (fun a b => a.url ≠ b.url) ∧
    ∀ r ∈ liveResults inp,
      pyStartsWith (pyLower r.url) "http" = true ∧
      ((pyEndsWith (pyLower (urlNetloc r.url)) ".google.com" = true ∨
        pyEndsWith (pyLower (urlNetloc r.url)) ".googleusercontent.com" = true ∨
        pyEndsWith (pyLower (urlNetloc r.url)) ".gstatic.com" = true ∨
        pyEndsWith (pyLower (urlNetloc r.url)) ".google" = true) →
        pyStartsWith (pyLower (urlNetloc r.url)) "sites.google.com" = true) ∧
      r.title ≠ "" := by
  obtain ⟨hnd, hok, hlen, htl⟩ := collectState_inv inp
  have hmap := buildResults_map_url (collectState inp)
    (collectSnippets inp (collectState inp).urls.length)
  have hres : liveResults inp = buildResults (collectState inp)
      (collectSnippets inp (collectState inp).urls.length) := rfl
  refine ⟨?_, ?_, ?_, ?_⟩
  · simp [spotlightGoogle, hq, hlive]
  · rw [hres, buildResults_length]
    exact collectState_len inp
  · have hp : ((liveResults inp).map (fun r => r.url)).Pairwise (· ≠ ·) := by
      rw [hres, hmap]
      exact hnd
    exact List.pairwise_map.mp hp
  · intro r hr
    have hurl : r.url ∈ (collectState inp).urls := by
      rw [← hmap, ← hres]
      exact List.mem_map_of_mem (fun r => r.url) hr
    have hu := hok r.url hurl
    have hu12 : pyStartsWith (pyLower r.url) "http" = true ∧
        googleHost (pyLower (urlNetloc r.url)) = false := by
      simpa [urlOk] using hu
    refine ⟨hu12.1, ?_, ?_⟩
    · intro hend
      by_contra hsites
      have hs : pyStartsWith (pyLower (urlNetloc r.url)) "sites.google.com"
          = false := by simpa using hsites
      have hg : googleHost (pyLower (urlNetloc r.url)) = true := by
        simp only [googleHost, hs, Bool.not_false, Bool.and_true,
          Bool.or_eq_true]
        rcases hend with h | h | h | h <;> simp [h]
      rw [hg] at hu12
      exact Bool.noConfusion hu12.2
    · rw [hres] at hr
      simp only [buildResults, List.mem_map, List.mem_range] at hr
      obtain ⟨i, hi, rfl⟩ := hr
      have hit : i < (collectState inp).titles.length := by
        rw [hlen]; exact hi
      simp only [hit, if_true]
      have : (collectState inp).titles.getD i "" ∈ (collectState inp).titles := by
        rw [List.getD_eq_getElem _ "" hit]
        exact List.getElem_mem hit
      exact htl _ this

/-- Witness instantiating C8 on a scrape with one valid direct match. -/
theorem C8_live_response_invariants_witness :
    spotlightGoogle "a" (.ok scrapeMatchesW) =
      .payload 200 "a" (liveResults scrapeMatchesW) ∧
    (liveResults scrapeMatchesW).length ≤ 10 ∧
    (liveResults scrapeMatchesW).Pairwise (fun a b => a.url ≠ b.url) ∧
    ∀ r ∈ liveResults scrapeMatchesW,
      pyStartsWith (pyLower r.url) "http" = true ∧
      ((pyEndsWith (pyLower (urlNetloc r.url)) ".google.com" = true ∨
        pyEndsWith (pyLower (urlNetloc r.url)) ".googleusercontent.com" = true ∨
        pyEndsWith (pyLower (urlNetloc r.url)) ".gstatic.com" = true ∨
        pyEndsWith (pyLower (urlNetloc r.url)) ".google" = true) →
        pyStartsWith (pyLower (urlNetloc r.url)) "sites.google.com" = true) ∧
      r.title ≠ "" :=
  C8_live_response_invariants "a" scrapeMatchesW (by decide) (by decide)

/-- A successful _same_file test means the destination holds exactly the
source content. -/
theorem sameFile_eq (content : String) (o : Option String)
    (h : sameFile content o = true) : o = some content := by
  cases o with
  | none => exact Bool.noConfusion h
  | some d =>
    have hd : d = content := eq_of_beq (by simpa [sameFile] using h)
    rw [hd]

/-- _copy_file_with_compare leaves the source content at the destination
whether or not it wrote. -/
theorem copyFileWithCompare_dst_self (content : String) (rel : List String)
    (acc : DestState) :
    (copyFileWithCompare content rel acc).dst rel = some content := by
  unfold copyFileWithCompare
  split
  · rename_i h
    exact sameFile_eq content (acc.dst rel) h
  · simp

/-- _copy_file_with_compare does not touch other destinations. -/
theorem copyFileWithCompare_dst_other (content : String) (rel k : List String)
    (acc : DestState) (hk : k ≠ rel) :
    (copyFileWithCompare content rel acc).dst k = acc.dst k := by
  unfold copyFileWithCompare
  split
  · rfl
  · simp [hk]

/-- One copy step leaves the expected content at the file's own
destination. -/
theorem copyTreeStep_dst_self (world : PyPath → Option String)
    (res : PyPath → PyPath) (srcRoot : PyPath) (acc : DestState)
    (f : List String × String) :
    (copyTreeStep world res srcRoot acc f).dst f.1 =
      some (expectedContent world res srcRoot f) := by
  cases hx : extractLinkTarget (some f.2) with
  | none =>
    simp only [copyTreeStep, expectedContent, hx]
    exact copyFileWithCompare_dst_self f.2 f.1 acc
  | some tgt =>
    cases hw : world (resolveLinkTarget res
        ⟨srcRoot.absolute, srcRoot.comps ++ f.1.dropLast⟩ tgt) with
    | none =>
      simp only [copyTreeStep, expectedContent, hx, hw]
      exact copyFileWithCompare_dst_self f.2 f.1 acc
    | some c =>
      simp only [copyTreeStep, expectedContent, hx, hw]
      split
      · rename_i h
        exact h
      · simp

/-- One copy step does not touch other destinations. -/
theorem copyTreeStep_dst_other (world : PyPath → Option String)
    (res : PyPath → PyPath) (srcRoot : PyPath) (acc : DestState)
    (f : List String × String) (k : List String) (hk : k ≠ f.1) :
    (copyTreeStep world res srcRoot acc f).dst k = acc.dst k := by
  cases hx : extractLinkTarget (some f.2) with
  | none =>
    simp only [copyTreeStep, hx]
    exact copyFileWithCompare_dst_other f.2 f.1 k acc hk
  | some tgt =>
    cases hw : world (resolveLinkTarget res
        ⟨srcRoot.absolute, srcRoot.comps ++ f.1.dropLast⟩ tgt) with
    | none =>
      simp only [copyTreeStep, hx, hw]
      exact copyFileWithCompare_dst_other f.2 f.1 k acc hk
    | some c =>
      simp only [copyTreeStep, hx, hw]
      split
      · rfl
      · simp [hk]

/-- The copy loop leaves destinations of unprocessed relative paths
unchanged. -/
theorem copyTree_foldl_other (world : PyPath → Option String)
    (res : PyPath → PyPath) (srcRoot : PyPath) :
    ∀ (files : List (List String × String)) (acc : DestState)
      (k : List String), k ∉ files.map Prod.fst →
      (files.foldl (copyTreeStep world res srcRoot) acc).dst k = acc.dst k := by
  intro files
  induction files with
  | nil => intro acc k _; rfl
  | cons f files ih =>
    intro acc k hk
    simp only [List.map_cons, List.mem_cons] at hk
    push_neg at hk
    simp only [List.foldl_cons]
    rw [ih _ _ hk.2]
    exact copyTreeStep_dst_other world res srcRoot acc f k hk.1

/-- With pairwise-distinct relative paths, the copy loop leaves every file's
expected content at that file's destination. -/
theorem copyTree_foldl_self (world : PyPath → Option String)
    (res : PyPath → PyPath) (srcRoot : PyPath) :
    ∀ (files : List (List String × String)) (acc : DestState),
      (files.map Prod.fst).Nodup →
      ∀ f ∈ files, (files.foldl (copyTreeStep world res srcRoot) acc).dst f.1 =
        some (expectedContent world res srcRoot f) := by
  intro files
  induction files with
  | nil => intro acc _ f hf; cases hf
  | cons g files ih =>
    intro acc hnd f hf
    simp only [List.map_cons, List.nodup_cons] at hnd
    simp only [List.foldl_cons]
    rcases List.mem_cons.mp hf with h | h
    · subst h
      rw [copyTree_foldl_other world res srcRoot files _ f.1 hnd.1]
      exact copyTreeStep_dst_self world res srcRoot acc f
    · exact ih _ hnd.2 f h

/-- A copy step whose destination already holds the expected content is the
identity: no write happens and the state is unchanged. -/
theorem copyTreeStep_converged (world : PyPath → Option String)
    (res : PyPath → PyPath) (srcRoot : PyPath) (acc : DestState)
    (f : List String × String)
    (h : acc.dst f.1 = some (expectedContent world res srcRoot f)) :
    copyTreeStep world res srcRoot acc f = acc := by
  cases hx : extractLinkTarget (some f.2) with
  | none =>
    have h2 : acc.dst f.1 = some f.2 := by
      simpa [expectedContent, hx] using h
    have hc : sameFile f.2 (acc.dst f.1) = true := by simp [sameFile, h2]
    simp only [copyTreeStep, hx]
    unfold copyFileWithCompare
    rw [if_pos hc]
  | some tgt =>
    cases hw : world (resolveLinkTarget res
        ⟨srcRoot.absolute, srcRoot.comps ++ f.1.dropLast⟩ tgt) with
    | none =>
      have h2 : acc.dst f.1 = some f.2 := by
        simpa [expectedContent, hx, hw] using h
      have hc : sameFile f.2 (acc.dst f.1) = true := by simp [sameFile, h2]
      simp only [copyTreeStep, hx, hw]
      unfold copyFileWithCompare
      rw [if_pos hc]
    | some c =>
      have h2 : acc.dst f.1 =
          some (applyReplacements c LINK_CONTENT_REPLACEMENTS) := by
        simpa [expectedContent, hx, hw] using h
      simp only [copyTreeStep, hx, hw]
      rw [if_pos h2]

/-- A copy run over an already-converged destination performs no writes and
changes nothing. -/
theorem copyTree_foldl_converged (world : PyPath → Option String)
    (res : PyPath → PyPath) (srcRoot : PyPath) :
    ∀ (files : List (List String × String)) (acc : DestState),
      (∀ f ∈ files, acc.dst f.1 = some (expectedContent world res srcRoot f)) →
      files.foldl (copyTreeStep world res srcRoot) acc = acc := by
  intro files
  induction files with
  | nil => intro acc _; rfl
  | cons g files ih =>
    intro acc hconv
    simp only [List.foldl_cons]
    rw [copyTreeStep_converged world res srcRoot acc g (hconv g (by simp))]
    exact ih acc (fun f hf => hconv f (List.mem_cons_of_mem g hf))

/-- A list is a prefix of itself in the Boolean sense. -/
theorem isPrefixOf_refl_str (l : List String) : l.isPrefixOf l = true := by
  induction l with
  | nil => rfl
  | cons a l ih => simp [List.isPrefixOf, ih]

/-- mkdir marks the created path itself as existing. -/
theorem mkdirParents_self (d : PyPath → Bool) (p : PyPath) :
    mkdirParents d p p = true := by
  simp [mkdirParents, isPrefixOf_refl_str]

/-- mkdir keeps every existing directory. -/
theorem mkdirParents_mono (d : PyPath → Bool) (p q : PyPath)
    (h : d q = true) : mkdirParents d p q = true := by
  simp [mkdirParents, h]

/-- The _ensure_dirs loop keeps every existing directory. -/
theorem foldl_mkdir_mono (base : PyPath) :
    ∀ (l : List String) (d : PyPath → Bool) (q : PyPath), d q = true →
      (l.foldl (fun d r => mkdirParents d (subdirPath base r)) d) q = true := by
  intro l
  induction l with
  | nil => intro d q h; exact h
  | cons r l ih =>
    intro d q h
    simp only [List.foldl_cons]
    exact ih _ _ (mkdirParents_mono d _ q h)

/-- The _ensure_dirs loop creates every directory on its list. -/
theorem foldl_mkdir_mem (base : PyPath) :
    ∀ (l : List String) (d : PyPath → Bool) (rel : String), rel ∈ l →
      (l.foldl (fun d r => mkdirParents d (subdirPath base r)) d)
        (subdirPath base rel) = true := by
  intro l
  induction l with
  | nil => intro d rel h; cases h
  | cons r l ih =>
    intro d rel h
    simp only [List.foldl_cons]
    rcases List.mem_cons.mp h with h | h
    · subst h
      exact foldl_mkdir_mono base l _ _ (mkdirParents_self d _)
    · exact ih _ rel h

/-- _ensure_dirs leaves every REQUIRED_SUBDIRS subdirectory in existence. -/
theorem ensureDirs_subdir (d : PyPath → Bool) (base : PyPath) (rel : String)
    (h : rel ∈ REQUIRED_SUBDIRS) :
    ensureDirs d base (subdirPath base rel) = true :=
  foldl_mkdir_mem base REQUIRED_SUBDIRS _ rel h

/-- C4: with pairwise-distinct relative paths, _copy_tree_with_links leaves
at each destination: for a link file (first line starting with "link:"
case-insensitively) whose resolved target is readable, the target's text
with every LINK_CONTENT_REPLACEMENTS key literally substituted; for a link
file with a missing or unreadable target, the original template content;
and for every non-link file, the template content byte-for-byte. -/
theorem C4_copy_tree_with_links (world : PyPath → Option String)
    (res : PyPath → PyPath) (srcRoot : PyPath)
    (files : List (List String × String))
    (dst0 : List String → Option String)
    (hnd : (files.map Prod.fst).Nodup) :
    ∀ f ∈ files,
      (copyTreeWithLinks world res srcRoot files dst0).dst f.1 =
        some (expectedContent world res srcRoot f) ∧
      (extractLinkTarget (some f.2) = Option.none →
        expectedContent world res srcRoot f = f.2) ∧
      (∀ tgt, extractLinkTarget (some f.2) = some tgt →
        (∀ c, world (resolveLinkTarget res
            ⟨srcRoot.absolute, srcRoot.comps ++ f.1.dropLast⟩ tgt) = some c →
          expectedContent world res srcRoot f =
            applyReplacements c LINK_CONTENT_REPLACEMENTS) ∧
        (world (resolveLinkTarget res
            ⟨srcRoot.absolute, srcRoot.comps ++ f.1.dropLast⟩ tgt) =
              Option.none →
          expectedContent world res srcRoot f = f.2)) := by
  intro f hf
  refine ⟨copyTree_foldl_self world res srcRoot files ⟨dst0, []⟩ hnd f hf,
    ?_, ?_⟩
  · intro hx
    simp [expectedContent, hx]
  · intro tgt hx
    constructor
    · intro c hw
      simp [expectedContent, hx, hw]
    · intro hw
      simp [expectedContent, hx, hw]

/-- Witness instantiating C4 on a two-file template with one absolute link
and one plain file. -/
theorem C4_copy_tree_with_links_witness :
    (copyTreeWithLinks worldW (fun p => p) srcRootW filesW
        (fun _ => Option.none)).dst ["a.js"] =
      some (expectedContent worldW (fun p => p) srcRootW
        (["a.js"], "link:/mod/web/t.js")) ∧
    expectedContent worldW (fun p => p) srcRootW
        (["a.js"], "link:/mod/web/t.js") =
      "import(\"../typedefs/spotlight-typedefs.js\") x" := by
  constructor
  · exact (C4_copy_tree_with_links worldW (fun p => p) srcRootW filesW
      (fun _ => Option.none) (by decide) (["a.js"], "link:/mod/web/t.js")
      (by simp [filesW])).1
  · rfl

/-- C5: ensure_user_plugins_initialized is idempotent: starting from any
state, after one run a second run with the same template sources and
untouched destination performs no file writes, leaves the destination map
unchanged, and leaves every REQUIRED_SUBDIRS subdirectory in existence. -/
theorem C5_bootstrap_idempotent (world : PyPath → Option String)
    (res : PyPath → PyPath) (userBase srcDefault : PyPath)
    (files : List (List String × String)) (st : InitState)
    (hnd : (files.map Prod.fst).Nodup) :
    (ensureUserPluginsInitialized world res userBase srcDefault files
      (ensureUserPluginsInitialized world res userBase srcDefault files
        st).1).2 = [] ∧
    ((ensureUserPluginsInitialized world res userBase srcDefault files
      (ensureUserPluginsInitialized world res userBase srcDefault files
        st).1).1).dst =
      ((ensureUserPluginsInitialized world res userBase srcDefault files
        st).1).dst ∧
    (∀ rel ∈ REQUIRED_SUBDIRS,
      ((ensureUserPluginsInitialized world res userBase srcDefault files
        (ensureUserPluginsInitialized world res userBase srcDefault files
          st).1).1).dirs (subdirPath userBase rel) = true) := by
  have hconv : ∀ f ∈ files,
      ((copyTreeWithLinks world res srcDefault files st.dst).dst) f.1 =
        some (expectedContent world res srcDefault f) :=
    copyTree_foldl_self world res srcDefault files ⟨st.dst, []⟩ hnd
  have hrun2 : copyTreeWithLinks world res srcDefault files
      ((copyTreeWithLinks world res srcDefault files st.dst).dst) =
      ⟨(copyTreeWithLinks world res srcDefault files st.dst).dst, []⟩ :=
    copyTree_foldl_converged world res srcDefault files
      ⟨(copyTreeWithLinks world res srcDefault files st.dst).dst, []⟩ hconv
  refine ⟨?_, ?_, ?_⟩
  · show (copyTreeWithLinks world res srcDefault files
      ((copyTreeWithLinks world res srcDefault files st.dst).dst)).writes = []
    rw [hrun2]
  · show (copyTreeWithLinks world res srcDefault files
      ((copyTreeWithLinks world res srcDefault files st.dst).dst)).dst =
      (copyTreeWithLinks world res srcDefault files st.dst).dst
    rw [hrun2]
  · intro rel hrel
    exact ensureDirs_subdir _ userBase rel hrel

/-- Witness instantiating C5 on the concrete two-file template. -/
theorem C5_bootstrap_idempotent_witness :
    (ensureUserPluginsInitialized worldW (fun p => p) ⟨true, ["user"]⟩
      srcRootW filesW
      (ensureUserPluginsInitialized worldW (fun p => p) ⟨true, ["user"]⟩
        srcRootW filesW initStateW).1).2 = [] ∧
    ((ensureUserPluginsInitialized worldW (fun p => p) ⟨true, ["user"]⟩
      srcRootW filesW
      (ensureUserPluginsInitialized worldW (fun p => p) ⟨true, ["user"]⟩
        srcRootW filesW initStateW).1).1).dst =
      ((ensureUserPluginsInitialized worldW (fun p => p) ⟨true, ["user"]⟩
        srcRootW filesW initStateW).1).dst ∧
    (∀ rel ∈ REQUIRED_SUBDIRS,
      ((ensureUserPluginsInitialized worldW (fun p => p) ⟨true, ["user"]⟩
        srcRootW filesW
        (ensureUserPluginsInitialized worldW (fun p => p) ⟨true, ["user"]⟩
          srcRootW filesW initStateW).1).1).dirs
        (subdirPath ⟨true, ["user"]⟩ rel) = true) :=
  C5_bootstrap_idempotent worldW (fun p => p) ⟨true, ["user"]⟩ srcRootW
    filesW initStateW (by decide)

end OvumSpotlight
